import Mathlib

/-!
Shallow embedding of the core of the `ar-3d-model-generator` application:
the Scene Generator (`src/services/geminiService.ts`, `generate3DStructure`),
the data model (`src/types.ts`), the Scene Renderer
(`GeneratedObject` / `ShapeRenderer` / `ShapeMaterial` in the renderer
component) and the caller-side state transition (`handleGenerate` in
`src/App.tsx`).

Modelling conventions:
* JavaScript numbers are modelled as `ℚ`.  All numeric literals appearing in
  the source (0.3, 0.5, 2.5, 0.4, …) are exactly representable, and no claim
  depends on floating-point rounding.
* The backend response, after `JSON.parse`, is an untyped runtime value; it is
  modelled by the inductive `JsonValue`.  `JSON.parse` itself and the network
  call are external, so `generate3DStructure` takes the outcome of that phase
  (`BackendResult`) as an explicit argument: call threw / no text / text that
  is not JSON / a parsed JSON value.  (JSON text can never parse to `NaN` or
  to `undefined`, so `ℚ` covers every number `JSON.parse` can produce.)
* JavaScript truthiness tests (`!apiKey`, `parsed.shapes || []`,
  `parsed.modelKey && ASSET_LIBRARY[parsed.modelKey]`, `data.modelUrl ? … : …`,
  `if (texture && TEXTURE_MAP[texture])`, `!prompt.trim()`) are embedded
  explicitly: `""`, `0`, `null`, `false` and an absent property are falsy;
  arrays and objects (including the empty array) are truthy.
* React/three.js are external; the renderer is modelled as the pure function
  from the scene data to the list of scene-graph nodes it declares, with the
  geometry arguments, transforms and material parameters the JSX passes.
-/

namespace ARGen

/-- Runtime JSON values as produced by `JSON.parse`. -/
inductive JsonValue where
  | null
  | bool (b : Bool)
  | num (q : ℚ)
  | str (s : String)
  | arr (elems : List JsonValue)
  | obj (fields : List (String × JsonValue))

/-- JavaScript truthiness of a JSON runtime value.  (`JSON.parse` cannot
produce `NaN` or `undefined`; `-0` parses to `0`.) -/
def jsTruthy : JsonValue → Bool
  | .null => false
  | .bool b => b
  | .num q => decide (q ≠ 0)
  | .str s => decide (s ≠ "")
  | .arr _ => true
  | .obj _ => true

/-- First-match lookup among the OWN properties of a string-keyed object
(keys are distinct in both record literals of the source and in objects
produced by `JSON.parse`).  This is only the own-property part of JavaScript
bracket access; full bracket access on the library object literals also
reaches the inherited `Object.prototype` members and is modelled by
`jsGetProp` below. -/
def jsLookup {α : Type} : List (String × α) → String → Option α
  | [], _ => none
  | (k, v) :: rest, key => if key = k then some v else jsLookup rest key

/-- The property names a plain object literal inherits from
`Object.prototype`.  All of them hold functions, except the accessor
`__proto__`, which yields the `Object.prototype` object itself; every one of
these values is truthy and none is a string. -/
def OBJECT_PROTOTYPE_KEYS : List String :=
  [ "constructor", "hasOwnProperty", "isPrototypeOf", "propertyIsEnumerable",
    "toLocaleString", "toString", "valueOf", "__defineGetter__",
    "__defineSetter__", "__lookupGetter__", "__lookupSetter__", "__proto__" ]

/-- A value produced by bracket access on one of the two library object
literals: either an own property (one of the URL strings) or an inherited
`Object.prototype` member (a non-string function or object, recorded by its
name). -/
inductive JsPropValue where
  | str (s : String)
  | protoFn (name : String)
deriving DecidableEq

/-- JavaScript truthiness of such a value: functions and objects are truthy;
a string is truthy when non-empty. -/
def jsPropTruthy : JsPropValue → Bool
  | .str s => decide (s ≠ "")
  | .protoFn _ => true

/-- Bracket access `obj[key]` on a library object literal with a string key:
an own property wins; otherwise the inherited `Object.prototype` member of
that name is found; otherwise the result is `undefined`. -/
def jsGetProp (obj : List (String × String)) (key : String) : Option JsPropValue :=
  match jsLookup obj key with
  | some v => some (.str v)
  | none => if key ∈ OBJECT_PROTOTYPE_KEYS then some (.protoFn key) else none

/-- Stand-in for JavaScript number-to-string conversion.  `JSON.parse` yields
doubles, which JavaScript formats as decimal numerals over digits and the
signs `-`, `.`, `e`, `+`; this stand-in prints the rational instead, over
digits, `-` and `/`.  Both alphabets are disjoint from every
`ASSET_LIBRARY`/`TEXTURE_MAP` key and every `Object.prototype` name, and
property lookup is this function's only consumer, so the lookups below agree
with JavaScript for every number. -/
def jsNumToString (q : ℚ) : String :=
  if q.den = 1 then toString q.num else toString q.num ++ "/" ++ toString q.den

mutual

/-- JavaScript `ToString` of a parsed JSON value, as applied by bracket
access with a non-string key: strings pass through, booleans and `null`
print their literal names, numbers print as numerals, arrays join their
elements with commas (recursively; a `null` element joins as the empty
string), and plain objects print `"[object Object]"`. -/
def jsToString : JsonValue → String
  | .null => "null"
  | .bool b => if b then "true" else "false"
  | .num q => jsNumToString q
  | .str s => s
  | .arr xs => String.intercalate "," (jsToStringElems xs)
  | .obj _ => "[object Object]"

/-- `Array.prototype.join` element conversion: `null` (and `undefined`, not
representable in JSON) joins as `""`; any other element via `jsToString`. -/
def jsToStringElems : List JsonValue → List String
  | [] => []
  | .null :: rest => "" :: jsToStringElems rest
  | v :: rest => jsToString v :: jsToStringElems rest

end

/-- Property access `v.key` on a parsed JSON value: throws a `TypeError` on
`null` (modelled as `.error ()`), yields the field on objects, and yields
`undefined` (modelled as `none`) on any other value.  The embedded service
reads only `parsed.shapes` and `parsed.modelKey`; neither name is an
inherited member of `Object.prototype` nor of the Array/String/Number/Boolean
prototypes, so own-property lookup on objects and `undefined` on other
non-null values are the exact JavaScript results for these two keys. -/
def jsGetField : JsonValue → String → Except Unit (Option JsonValue)
  | .null, _ => .error ()
  | .obj fields, key => .ok (jsLookup fields key)
  | _, _ => .ok none

/-- `ASSET_LIBRARY` from `src/services/geminiService.ts` (order preserved). -/
def ASSET_LIBRARY : List (String × String) :=
  [ ("duck", "https://raw.githubusercontent.com/KhronosGroup/glTF-Sample-Models/master/2.0/Duck/glTF-Binary/Duck.glb"),
    ("robot", "https://raw.githubusercontent.com/mrdoob/three.js/master/examples/models/gltf/RobotExpressive/RobotExpressive.glb"),
    ("avocado", "https://raw.githubusercontent.com/KhronosGroup/glTF-Sample-Models/master/2.0/Avocado/glTF-Binary/Avocado.glb"),
    ("boombox", "https://raw.githubusercontent.com/KhronosGroup/glTF-Sample-Models/master/2.0/BoomBox/glTF-Binary/BoomBox.glb"),
    ("lantern", "https://raw.githubusercontent.com/KhronosGroup/glTF-Sample-Models/master/2.0/Lantern/glTF-Binary/Lantern.glb"),
    ("buggy", "https://raw.githubusercontent.com/KhronosGroup/glTF-Sample-Models/master/2.0/Buggy/glTF-Binary/Buggy.glb"),
    ("helmet", "https://raw.githubusercontent.com/KhronosGroup/glTF-Sample-Models/master/2.0/DamagedHelmet/glTF-Binary/DamagedHelmet.glb") ]

/-- The two error messages thrown by `generate3DStructure`. -/
inductive GenError where
  | apiKeyMissing
  | generationFailed
deriving DecidableEq

def errorMessage : GenError → String
  | .apiKeyMissing => "API Key is missing. Please set REACT_APP_API_KEY or check your environment."
  | .generationFailed => "Failed to generate 3D model data."

/-- Outcome of the backend call followed by `JSON.parse`, which are external
to the embedded code: the call threw (`callFailure`), `response.text` was
absent or empty (`emptyText`), the text was not valid JSON (`parseFailure`),
or a parsed JSON value was obtained. -/
inductive BackendResult where
  | callFailure
  | emptyText
  | parseFailure
  | parsed (v : JsonValue)

/-- The result object built by `generate3DStructure` at runtime.  TypeScript
types are erased at runtime and the service performs no validation of
`parsed.shapes`, so the faithful runtime model of `result.shapes` is the raw
JSON value that was stored there (`parsed.shapes || []`); likewise
`result.modelUrl` holds whatever `ASSET_LIBRARY[parsed.modelKey]` evaluated
to — a URL string for an own key, or an inherited `Object.prototype` member
for a modelKey such as `"constructor"`. -/
structure GeneratedModelDataRaw where
  shapes : JsonValue
  modelUrl : Option JsPropValue

/-- `parsed.shapes || []`: the field's value when present and truthy,
otherwise the empty array. -/
def jsOrEmptyArr : Option JsonValue → JsonValue
  | some v => if jsTruthy v then v else .arr []
  | none => .arr []

/-- `parsed.modelKey && ASSET_LIBRARY[parsed.modelKey]` followed by
`result.modelUrl = ASSET_LIBRARY[parsed.modelKey]`: when the field's value is
truthy, its `ToString` image is the property key (so the array `["duck"]`
resolves the duck URL); an own `ASSET_LIBRARY` key resolves to its URL, an
`Object.prototype` name such as `"constructor"` resolves to the inherited
truthy non-string member, and any other key reads `undefined`, leaving
`modelUrl` unset. -/
def resolveModelKey : Option JsonValue → Option JsPropValue
  | some mk =>
    if jsTruthy mk then
      match jsGetProp ASSET_LIBRARY (jsToString mk) with
      | some v => if jsPropTruthy v then some v else none
      | none => none
    else none
  | none => none

/-- The body of the `try` block after `JSON.parse` succeeded: build the
result object.  Property access order follows the source (`parsed.shapes`
first, then `parsed.modelKey`); an access that throws (only possible when
`parsed` is `null`) is an `.error` that the surrounding `catch` turns into
the generic failure. -/
def buildResult (parsed : JsonValue) : Except Unit GeneratedModelDataRaw :=
  match jsGetField parsed "shapes" with
  | .error e => .error e
  | .ok shapesField =>
    match jsGetField parsed "modelKey" with
    | .error e => .error e
    | .ok modelKeyField =>
      .ok { shapes := jsOrEmptyArr shapesField, modelUrl := resolveModelKey modelKeyField }

/-- `generate3DStructure` from `src/services/geminiService.ts`.  The prompt is
forwarded to the backend (already folded into `resp`) and is never inspected
locally.  `apiKey = ""` models a falsy `process.env.API_KEY || ''`. -/
def generate3DStructure (apiKey prompt : String) (resp : BackendResult) :
    Except GenError GeneratedModelDataRaw :=
  if apiKey = "" then .error .apiKeyMissing
  else
    match resp with
    | .callFailure => .error .generationFailed
    | .emptyText => .error .generationFailed
    | .parseFailure => .error .generationFailed
    | .parsed v =>
      match buildResult v with
      | .ok r => .ok r
      | .error _ => .error .generationFailed

/-! ### Data model (`src/types.ts`) and the Scene Renderer -/

/-- `ShapeData` from `src/types.ts`.  `type` is declared as the closed union
`ShapeType` but arrives from untrusted JSON at runtime, and the renderer
switches on it with a default case, so it is modelled as a `String`.  The
three vectors are runtime arrays whose length is not enforced. -/
structure ShapeData where
  type : String
  position : List ℚ
  rotation : List ℚ
  scale : List ℚ
  color : String
  metalness : Option ℚ
  roughness : Option ℚ
  texture : Option String
deriving DecidableEq

/-- `GeneratedModelData` from `src/types.ts`, at its declared type (the form
the renderer is written against). -/
structure GeneratedModelData where
  shapes : List ShapeData
  modelUrl : Option String
deriving DecidableEq

/-- `TEXTURE_MAP` from the renderer component (order preserved). -/
def TEXTURE_MAP : List (String × String) :=
  [ ("wood", "https://raw.githubusercontent.com/mrdoob/three.js/master/examples/textures/hardwood2_diffuse.jpg"),
    ("brick", "https://raw.githubusercontent.com/mrdoob/three.js/master/examples/textures/brick_diffuse.jpg"),
    ("stone", "https://raw.githubusercontent.com/mrdoob/three.js/master/examples/textures/planets/moon_1024.jpg"),
    ("metal", "https://raw.githubusercontent.com/mrdoob/three.js/master/examples/textures/carbon/Carbon.png"),
    ("tech", "https://raw.githubusercontent.com/mrdoob/three.js/master/examples/textures/uv_grid_opengl.jpg"),
    ("checkers", "https://raw.githubusercontent.com/mrdoob/three.js/master/examples/textures/checker.png") ]

/-- The texture keys of `TEXTURE_MAP`, the closed set of the spec. -/
def textureKeys : List String := ["wood", "brick", "stone", "metal", "tech", "checkers"]

/-- The texture requested by `TexturedMaterial`: the `url` prop it receives —
whatever `TEXTURE_MAP[texture]` evaluated to, a URL string for the six own
keys or an inherited `Object.prototype` member for names like
`"constructor"` — and the tiling configuration applied there
(`RepeatWrapping` on both axes, `repeat.set(1,1)`). -/
structure TextureSettings where
  url : JsPropValue
  wrapS : Bool
  wrapT : Bool
  repeatX : ℚ
  repeatY : ℚ
deriving DecidableEq

/-- The parameters of the `meshStandardMaterial` a shape ends up with. -/
structure MaterialParams where
  map : Option TextureSettings
  color : String
  metalness : ℚ
  roughness : ℚ
deriving DecidableEq

/-- `ShapeMaterial` from the renderer component: destructure with defaults
`metalness = 0.3`, `roughness = 0.5`; if `texture` is truthy and
`TEXTURE_MAP[texture]` is truthy — an own key's URL, or an inherited
`Object.prototype` member for names like `"constructor"` — render the
textured material (`TexturedMaterial` with repeat wrapping and a 1×1
repeat), else the plain standard material.  The two JSX return sites pass
identical `color`/`metalness`/`roughness` and differ only in the texture
`map`, so they are modelled as one record whose `map` field carries that
choice. -/
def ShapeMaterial (shape : ShapeData) : MaterialParams :=
  let metalness := shape.metalness.getD (3/10)
  let roughness := shape.roughness.getD (1/2)
  let map : Option TextureSettings :=
    match shape.texture with
    | some t =>
      if t ≠ "" then
        match jsGetProp TEXTURE_MAP t with
        | some v =>
          if jsPropTruthy v then
            some { url := v, wrapS := true, wrapT := true, repeatX := 1, repeatY := 1 }
          else none
        | none => none
      else none
    | none => none
  { map := map, color := shape.color, metalness := metalness, roughness := roughness }

/-- The geometry constructors the renderer dispatches to. -/
inductive GeometryKind where
  | box
  | sphere
  | cylinder
  | cone
  | torus
  | capsule
deriving DecidableEq

/-- One primitive-mesh node: geometry kind with its fixed `args`, the local
transform taken componentwise from the runtime arrays (an out-of-range index
reads as `undefined`, modelled `none`), and the resolved material. -/
structure ShapeNode where
  geometry : GeometryKind
  args : List ℚ
  position : Option ℚ × Option ℚ × Option ℚ
  rotation : Option ℚ × Option ℚ × Option ℚ
  scale : Option ℚ × Option ℚ × Option ℚ
  material : MaterialParams
deriving DecidableEq

/-- A node of the produced scene graph: either the single imported-model node
(`Gltf` wrapped in `Resize scale={2.5}`) or a primitive-mesh node. -/
inductive SceneNode where
  | model (url : String) (fitScale : ℚ)
  | shape (node : ShapeNode)
deriving DecidableEq

/-- Whether a node is the imported-model node. -/
def SceneNode.isModel : SceneNode → Bool
  | .model _ _ => true
  | .shape _ => false

/-- `position[0], position[1], position[2]` on a runtime array: components
past the end read as `undefined` without throwing. -/
def comp3 (xs : List ℚ) : Option ℚ × Option ℚ × Option ℚ :=
  (xs.get? 0, xs.get? 1, xs.get? 2)

/-- `ShapeRenderer` from the renderer component: switch on `type`, one node
per recognized kind with the fixed geometry `args` the JSX passes, `null`
(no node) in the default case. -/
def ShapeRenderer (shape : ShapeData) : Option SceneNode :=
  let mk (g : GeometryKind) (args : List ℚ) : SceneNode :=
    .shape ⟨g, args, comp3 shape.position, comp3 shape.rotation, comp3 shape.scale,
            ShapeMaterial shape⟩
  match shape.type with
  | "box" => some (mk .box [1, 1, 1])
  | "sphere" => some (mk .sphere [1, 32, 32])
  | "cylinder" => some (mk .cylinder [1, 1, 1, 32])
  | "cone" => some (mk .cone [1, 2, 32])
  | "torus" => some (mk .torus [1, 2/5, 16, 32])
  | "capsule" => some (mk .capsule [1/2, 1, 4, 16])
  | _ => none

/-- The valid `kind` values, i.e. the cases of the `ShapeRenderer` switch. -/
def validKinds : List String := ["box", "sphere", "cylinder", "cone", "torus", "capsule"]

/-- `GeneratedObject` from the renderer component, as the list of scene-graph
nodes it declares inside the floating group: `data.modelUrl ? <Resize
scale={2.5}><Gltf src={data.modelUrl}/></Resize> : data.shapes.map(…)`.
The ternary tests JavaScript truthiness, so a present-but-empty `modelUrl`
falls through to the shapes branch.  The parent group's idle animation
mutates only the group transform, not the nodes below, and is not part of
this value. -/
def GeneratedObject (data : GeneratedModelData) : List SceneNode :=
  match data.modelUrl with
  | some url =>
    if url ≠ "" then [.model url (5/2)]
    else data.shapes.filterMap ShapeRenderer
  | none => data.shapes.filterMap ShapeRenderer

/-! ### Caller-side state (`src/App.tsx`) -/

/-- The `App` state touched by `handleGenerate`: the displayed scene data
(the raw runtime value a successful generation stored), the error banner,
and the loading flag. -/
structure AppState where
  modelData : Option GeneratedModelDataRaw
  error : Option String
  loading : Bool

/-- The whitespace characters `String.prototype.trim` removes, restricted to
the ASCII ones (JavaScript also trims Unicode space separators and the BOM,
which no claim involves). -/
def jsWhitespaceChar (c : Char) : Bool :=
  c = ' ' || c = '\t' || c = '\n' || c = '\r' || c = '\x0b' || c = '\x0c'

/-- `String.prototype.trim`: drop leading and trailing whitespace. -/
def jsTrim (s : String) : String :=
  ⟨((s.data.dropWhile jsWhitespaceChar).reverse.dropWhile jsWhitespaceChar).reverse⟩

/-- `handleGenerate` from `src/App.tsx` as a state transition: the guard
`if (!prompt.trim()) return;` short-circuits before anything happens (in
particular before the backend is contacted — the result does not depend on
`resp`); otherwise the generation result either replaces `modelData`
(clearing the error) or sets the error message, leaving `modelData` as it
was.  `loading` ends up `false` on every completed path. -/
def handleGenerate (state : AppState) (prompt apiKey : String) (resp : BackendResult) :
    AppState :=
  if jsTrim prompt = "" then state
  else
    match generate3DStructure apiKey prompt resp with
    | .ok d => { modelData := some d, error := none, loading := false }
    | .error e => { state with error := some (errorMessage e), loading := false }

/-! ### Helper lemmas -/

lemma jsLookup_TEXTURE_MAP_isSome (t : String) :
    (jsLookup TEXTURE_MAP t).isSome = true ↔ t ∈ textureKeys := by
  simp only [TEXTURE_MAP, textureKeys, jsLookup]
  split_ifs <;> simp_all

lemma jsLookup_TEXTURE_MAP_ne_empty (t u : String)
    (h : jsLookup TEXTURE_MAP t = some u) : u ≠ "" := by
  simp only [TEXTURE_MAP, jsLookup] at h
  split_ifs at h
  all_goals first
  | exact Option.noConfusion h
  | (cases Option.some.inj h; decide)

lemma jsLookup_ASSET_LIBRARY_ne_empty (k u : String)
    (h : jsLookup ASSET_LIBRARY k = some u) : u ≠ "" := by
  simp only [ASSET_LIBRARY, jsLookup] at h
  split_ifs at h
  all_goals first
  | exact Option.noConfusion h
  | (cases Option.some.inj h; decide)

lemma jsGetProp_TEXTURE_MAP_truthy (t : String) (v : JsPropValue)
    (h : jsGetProp TEXTURE_MAP t = some v) : jsPropTruthy v = true := by
  unfold jsGetProp at h
  cases hl : jsLookup TEXTURE_MAP t with
  | some u =>
    rw [hl] at h
    cases Option.some.inj h
    simpa [jsPropTruthy] using jsLookup_TEXTURE_MAP_ne_empty t u hl
  | none =>
    rw [hl] at h
    split_ifs at h
    cases Option.some.inj h
    rfl

lemma jsGetProp_TEXTURE_MAP_isSome (t : String) :
    (jsGetProp TEXTURE_MAP t).isSome = true ↔
      t ∈ textureKeys ∨ t ∈ OBJECT_PROTOTYPE_KEYS := by
  unfold jsGetProp
  cases hl : jsLookup TEXTURE_MAP t with
  | some u =>
    have hk : t ∈ textureKeys := (jsLookup_TEXTURE_MAP_isSome t).mp (by simp [hl])
    simp [hk]
  | none =>
    have hk : t ∉ textureKeys := fun hm => by
      have hs := (jsLookup_TEXTURE_MAP_isSome t).mpr hm
      simp [hl] at hs
    split_ifs with hp <;> simp [hk, hp]

lemma shapeMaterial_color (s : ShapeData) : (ShapeMaterial s).color = s.color := rfl

lemma shapeMaterial_metalness (s : ShapeData) :
    (ShapeMaterial s).metalness = s.metalness.getD (3/10) := rfl

lemma shapeMaterial_roughness (s : ShapeData) :
    (ShapeMaterial s).roughness = s.roughness.getD (1/2) := rfl

/-- The truthiness guards in `ShapeMaterial` never change the outcome: `""`
hits neither an own key nor an `Object.prototype` member, and every value
bracket access can return (a `TEXTURE_MAP` URL or an inherited member) is
truthy, so the resolved texture map is exactly the bracket access applied to
the verbatim `texture` string. -/
lemma shapeMaterial_map_eq (s : ShapeData) :
    (ShapeMaterial s).map =
      s.texture.bind fun t =>
        (jsGetProp TEXTURE_MAP t).map fun v =>
          ({ url := v, wrapS := true, wrapT := true, repeatX := 1, repeatY := 1 } :
            TextureSettings) := by
  unfold ShapeMaterial
  cases htex : s.texture with
  | none => rfl
  | some t =>
    by_cases ht : t = ""
    · subst ht; rfl
    · cases h : jsGetProp TEXTURE_MAP t with
      | none => simp [ht, h]
      | some v =>
        have hv : jsPropTruthy v = true := jsGetProp_TEXTURE_MAP_truthy t v h
        simp [ht, h, hv]

lemma ShapeRenderer_isSome_iff (s : ShapeData) :
    (ShapeRenderer s).isSome = true ↔ s.type ∈ validKinds := by
  unfold ShapeRenderer validKinds
  split <;> simp_all

lemma length_filterMap_of_isSome {α β : Type} (f : α → Option β) :
    ∀ l : List α, (∀ a ∈ l, (f a).isSome = true) → (l.filterMap f).length = l.length := by
  intro l
  induction l with
  | nil => intro _; rfl
  | cons a l ih =>
    intro h
    obtain ⟨b, hb⟩ := Option.isSome_iff_exists.mp (h a (List.mem_cons_self a l))
    simp [List.filterMap_cons, hb, ih fun x hx => h x (List.mem_cons_of_mem a hx)]

/-! ### Claims -/

/-- C1 (counterexample): the claim says that when the parse result carries a
recognized Asset Library key, the returned `shapes` list is empty.  On the
parsed response with `modelKey` `"duck"` and a one-element `shapes` array the
code resolves the key to the duck URL but keeps the non-empty parsed shapes
list, because `result.shapes` is `parsed.shapes || []` unconditionally. -/
theorem generate_modelKey_shapes_not_emptied_cex :
    generate3DStructure "key" "a rubber duck"
        (.parsed (.obj [("modelKey", .str "duck"), ("shapes", .arr [.obj []])])) =
      .ok { shapes := .arr [.obj []],
            modelUrl := some (.str "https://raw.githubusercontent.com/KhronosGroup/glTF-Sample-Models/master/2.0/Duck/glTF-Binary/Duck.glb") } ∧
    JsonValue.arr [.obj []] ≠ JsonValue.arr [] :=
  ⟨rfl, by simp⟩

/-- C1 (amended): for an object parse result, `shapes` is always the parsed
`shapes` value (`parsed.shapes || []`, defaulting to the empty array when the
field is absent or falsy) — it is not cleared when a model key matches; and
`modelUrl` holds the bracket-access result for the coerced `modelKey`: the
key's URL when the coerced string is a recognized Asset Library key, the
inherited `Object.prototype` member when it is one of those names, and
nothing when `modelKey` is absent, falsy, or coerces to any other string. -/
theorem generate_modelKey_resolution (apiKey prompt k url : String)
    (fs : List (String × JsonValue)) (mk : JsonValue) (hkey : apiKey ≠ "") :
    (jsLookup fs "modelKey" = some mk → jsTruthy mk = true → jsToString mk = k →
      jsLookup ASSET_LIBRARY k = some url →
      generate3DStructure apiKey prompt (.parsed (.obj fs)) =
        .ok { shapes := jsOrEmptyArr (jsLookup fs "shapes"),
              modelUrl := some (.str url) }) ∧
    (jsLookup fs "modelKey" = none →
      generate3DStructure apiKey prompt (.parsed (.obj fs)) =
        .ok { shapes := jsOrEmptyArr (jsLookup fs "shapes"), modelUrl := none }) ∧
    (jsLookup fs "modelKey" = some mk → jsToString mk = k →
      jsLookup ASSET_LIBRARY k = none → k ∉ OBJECT_PROTOTYPE_KEYS →
      generate3DStructure apiKey prompt (.parsed (.obj fs)) =
        .ok { shapes := jsOrEmptyArr (jsLookup fs "shapes"), modelUrl := none }) ∧
    (jsLookup fs "modelKey" = some mk → jsTruthy mk = true → jsToString mk = k →
      jsLookup ASSET_LIBRARY k = none → k ∈ OBJECT_PROTOTYPE_KEYS →
      generate3DStructure apiKey prompt (.parsed (.obj fs)) =
        .ok { shapes := jsOrEmptyArr (jsLookup fs "shapes"),
              modelUrl := some (.protoFn k) }) := by
  refine ⟨?_, ?_, ?_, ?_⟩
  · intro hmk htr hts hlib
    have hu := jsLookup_ASSET_LIBRARY_ne_empty k url hlib
    simp [generate3DStructure, hkey, buildResult, jsGetField, resolveModelKey, hmk, htr,
      hts, jsGetProp, hlib, jsPropTruthy, hu]
  · intro hmk
    simp [generate3DStructure, hkey, buildResult, jsGetField, resolveModelKey, hmk]
  · intro hmk hts hlib hproto
    cases htr : jsTruthy mk <;>
      simp [generate3DStructure, hkey, buildResult, jsGetField, resolveModelKey, hmk, htr,
        hts, jsGetProp, hlib, hproto]
  · intro hmk htr hts hlib hproto
    simp [generate3DStructure, hkey, buildResult, jsGetField, resolveModelKey, hmk, htr,
      hts, jsGetProp, hlib, hproto, jsPropTruthy]

/-- C1 (witness): at the concrete parsed response carrying only
`modelKey : "duck"`. -/
theorem generate_modelKey_resolution_witness :
    generate3DStructure "key" "a rubber duck" (.parsed (.obj [("modelKey", .str "duck")])) =
      .ok { shapes := .arr [],
            modelUrl := some (.str "https://raw.githubusercontent.com/KhronosGroup/glTF-Sample-Models/master/2.0/Duck/glTF-Binary/Duck.glb") } :=
  (generate_modelKey_resolution "key" "a rubber duck" "duck"
      "https://raw.githubusercontent.com/KhronosGroup/glTF-Sample-Models/master/2.0/Duck/glTF-Binary/Duck.glb"
      [("modelKey", JsonValue.str "duck")] (.str "duck") (by decide)).1
    rfl (by decide) rfl rfl

/-- C2 (counterexample): the claim says every `SceneDescription` whose
`modelUrl` is set renders as exactly one imported-model node with the shapes
ignored.  `data.modelUrl ? … : …` tests JavaScript truthiness, so a scene
whose `modelUrl` is present but equal to `""` falls to the shapes branch: the
output is the rendered box shape, not an imported-model node. -/
theorem render_empty_modelUrl_cex :
    ({ shapes := [⟨"box", [0, 0, 0], [0, 0, 0], [1, 1, 1], "#ff0000", none, none, none⟩],
       modelUrl := some "" } : GeneratedModelData).modelUrl.isSome = true ∧
    (GeneratedObject
        { shapes := [⟨"box", [0, 0, 0], [0, 0, 0], [1, 1, 1], "#ff0000", none, none, none⟩],
          modelUrl := some "" }).map SceneNode.isModel = [false] :=
  ⟨rfl, rfl⟩

/-- C2 (amended): for every scene whose `modelUrl` is set to a non-empty
string (the truthiness the renderer's ternary actually tests), `render`
produces exactly the single imported-model node with the fixed `Resize`
fit factor 2.5, whatever the shapes list holds. -/
theorem render_modelUrl_single_model_node (d : GeneratedModelData) (url : String)
    (h : d.modelUrl = some url) (hne : url ≠ "") :
    GeneratedObject d = [.model url (5/2)] ∧
    ∀ ss : List ShapeData, GeneratedObject { d with shapes := ss } = [.model url (5/2)] := by
  constructor
  · simp [GeneratedObject, h, hne]
  · intro ss
    simp [GeneratedObject, h, hne]

/-- C2 (witness): a scene with a non-empty model URL and a non-empty shapes
list renders as the single fitted model node. -/
theorem render_modelUrl_single_model_node_witness :
    GeneratedObject
        { shapes := [⟨"box", [0, 0, 0], [0, 0, 0], [1, 1, 1], "#ff0000", none, none, none⟩],
          modelUrl := some "https://example.org/m.glb" } =
      [SceneNode.model "https://example.org/m.glb" (5/2)] :=
  (render_modelUrl_single_model_node
      { shapes := [⟨"box", [0, 0, 0], [0, 0, 0], [1, 1, 1], "#ff0000", none, none, none⟩],
        modelUrl := some "https://example.org/m.glb" }
      "https://example.org/m.glb" rfl (by decide)).1

/-- C3: with no model reference, rendering produces one node per shape entry
whose `kind` is one of the six switch cases — exactly N nodes when every kind
is valid — and an entry with any `kind` outside that set produces no node
(the default case of the switch returns `null`; nothing throws). -/
theorem render_shapes_node_count (ss : List ShapeData) :
    ((∀ s ∈ ss, s.type ∈ validKinds) →
      (GeneratedObject { shapes := ss, modelUrl := none }).length = ss.length) ∧
    ∀ s : ShapeData, s.type ∉ validKinds → ShapeRenderer s = none := by
  constructor
  · intro h
    have hall : ∀ s ∈ ss, (ShapeRenderer s).isSome = true := fun s hs =>
      (ShapeRenderer_isSome_iff s).mpr (h s hs)
    simpa [GeneratedObject] using length_filterMap_of_isSome ShapeRenderer ss hall
  · intro s hs
    cases hr : ShapeRenderer s with
    | none => rfl
    | some n => exact absurd ((ShapeRenderer_isSome_iff s).mp (by simp [hr])) hs

/-- C3 (witness): a two-shape scene with valid kinds renders two nodes; a
`"pyramid"` entry renders none. -/
theorem render_shapes_node_count_witness :
    (GeneratedObject
        { shapes := [⟨"box", [0, 0, 0], [0, 0, 0], [1, 1, 1], "#ffffff", none, none, none⟩,
                     ⟨"sphere", [0, 1, 0], [0, 0, 0], [1, 1, 1], "#00ffff", none, none, none⟩],
          modelUrl := none }).length = 2 ∧
    ShapeRenderer ⟨"pyramid", [0, 0, 0], [0, 0, 0], [1, 1, 1], "#ffffff", none, none, none⟩ =
      none :=
  ⟨(render_shapes_node_count
      [⟨"box", [0, 0, 0], [0, 0, 0], [1, 1, 1], "#ffffff", none, none, none⟩,
       ⟨"sphere", [0, 1, 0], [0, 0, 0], [1, 1, 1], "#00ffff", none, none, none⟩]).1 (by decide),
   (render_shapes_node_count []).2
      ⟨"pyramid", [0, 0, 0], [0, 0, 0], [1, 1, 1], "#ffffff", none, none, none⟩ (by decide)⟩

/-- C4 (counterexample): the claim says a response containing a wrong-typed
field or a value outside its documented enum is rejected.  A parsed response
whose single shape has `type: "pyramid"` (outside the enum), `color: 42`
(wrong type) and `metalness: 7` (out of range) is accepted and returned
verbatim: no field of the parsed JSON is inspected, let alone validated. -/
theorem generate_no_validation_cex :
    generate3DStructure "key" "a pyramid"
        (.parsed (.obj [("shapes", .arr [.obj [("type", .str "pyramid"),
          ("color", .num 42), ("metalness", .num 7)]])])) =
      .ok { shapes := .arr [.obj [("type", .str "pyramid"), ("color", .num 42),
              ("metalness", .num 7)]],
            modelUrl := none } := rfl

/-- C4 (amended): `generate` performs no field-level validation: every parse
result that is a JSON object is accepted as-is, with the raw `shapes` value
passed through and `modelKey` only subjected to bracket access (string
coercion plus own/inherited property lookup), never checked; every non-null
non-object parse result (boolean, number, string, array) is accepted too,
with empty shapes; rejection happens only for a failed call, empty text,
text that is not JSON, or the `null` literal, whose property access
throws. -/
theorem generate_accepts_any_object_response (apiKey prompt : String)
    (fs : List (String × JsonValue)) (hkey : apiKey ≠ "") :
    generate3DStructure apiKey prompt (.parsed (.obj fs)) =
      .ok { shapes := jsOrEmptyArr (jsLookup fs "shapes"),
            modelUrl := resolveModelKey (jsLookup fs "modelKey") } ∧
    generate3DStructure apiKey prompt (.parsed .null) = .error .generationFailed ∧
    (∀ b : Bool, generate3DStructure apiKey prompt (.parsed (.bool b)) =
      .ok { shapes := .arr [], modelUrl := none }) ∧
    (∀ q : ℚ, generate3DStructure apiKey prompt (.parsed (.num q)) =
      .ok { shapes := .arr [], modelUrl := none }) ∧
    (∀ s : String, generate3DStructure apiKey prompt (.parsed (.str s)) =
      .ok { shapes := .arr [], modelUrl := none }) ∧
    (∀ xs : List JsonValue, generate3DStructure apiKey prompt (.parsed (.arr xs)) =
      .ok { shapes := .arr [], modelUrl := none }) := by
  refine ⟨?_, ?_, ?_, ?_, ?_, ?_⟩ <;>
    simp [generate3DStructure, hkey, buildResult, jsGetField, jsOrEmptyArr, resolveModelKey]

/-- C4 (witness): the out-of-enum shape is accepted; the `null` response is
the generic failure. -/
theorem generate_accepts_any_object_response_witness :
    generate3DStructure "key" "a pyramid"
        (.parsed (.obj [("shapes", .arr [.obj [("type", .str "pyramid")]])])) =
      .ok { shapes := .arr [.obj [("type", .str "pyramid")]], modelUrl := none } ∧
    generate3DStructure "key" "a pyramid" (.parsed .null) = .error .generationFailed ∧
    generate3DStructure "key" "a pyramid" (.parsed (.str "hello")) =
      .ok { shapes := .arr [], modelUrl := none } := by
  have h := generate_accepts_any_object_response "key" "a pyramid"
    [("shapes", JsonValue.arr [.obj [("type", JsonValue.str "pyramid")]])] (by decide)
  exact ⟨h.1, h.2.1, h.2.2.2.2.1 "hello"⟩

/-- C5 (counterexample): the claim's first formulation says `generate` fails
with a `GenerationError` on every empty prompt.  `generate3DStructure` never
inspects the prompt: with a credential present and a well-formed backend
response it succeeds on the empty prompt (the only guard lives in the
caller, `src/App.tsx`). -/
theorem generate_empty_prompt_not_error_cex :
    generate3DStructure "key" "" (.parsed (.obj [("shapes", .arr [])])) =
      .ok { shapes := .arr [], modelUrl := none } := rfl

/-- C5 (amended): the caller-side guard holds: `handleGenerate` is a no-op on
an empty or whitespace-only prompt, whatever the backend outcome would have
been — the result does not depend on `resp`, i.e. generation is never
invoked and no backend call can affect the state. -/
theorem handleGenerate_empty_prompt_noop (state : AppState) (prompt apiKey : String)
    (resp : BackendResult) (h : jsTrim prompt = "") :
    handleGenerate state prompt apiKey resp = state := by
  simp [handleGenerate, h]

/-- C5 (witness): a whitespace-only prompt leaves the state untouched even
when the backend would have failed. -/
theorem handleGenerate_empty_prompt_noop_witness :
    handleGenerate { modelData := none, error := none, loading := false } "   " "key"
        .callFailure =
      { modelData := none, error := none, loading := false } :=
  handleGenerate_empty_prompt_noop
    { modelData := none, error := none, loading := false } "   " "key" .callFailure (by decide)

/-- C6: when the backend call fails, returns no text, or returns text that is
not valid JSON, `generate` rejects with the generic user-facing message
("Failed to generate 3D model data.") and carries no partial result (the
error constructor holds no scene data), and the caller records exactly that
message while leaving the displayed scene data unchanged. -/
theorem generate_failure_error_state (state : AppState) (prompt apiKey : String)
    (hp : jsTrim prompt ≠ "") (hk : apiKey ≠ "") :
    (generate3DStructure apiKey prompt .callFailure = .error .generationFailed ∧
     generate3DStructure apiKey prompt .emptyText = .error .generationFailed ∧
     generate3DStructure apiKey prompt .parseFailure = .error .generationFailed) ∧
    errorMessage .generationFailed = "Failed to generate 3D model data." ∧
    ∀ resp ∈ [BackendResult.callFailure, BackendResult.emptyText, BackendResult.parseFailure],
      handleGenerate state prompt apiKey resp =
        { state with error := some "Failed to generate 3D model data.", loading := false } ∧
      (handleGenerate state prompt apiKey resp).modelData = state.modelData := by
  refine ⟨⟨?_, ?_, ?_⟩, rfl, ?_⟩
  · simp [generate3DStructure, hk]
  · simp [generate3DStructure, hk]
  · simp [generate3DStructure, hk]
  · intro resp hresp
    simp only [List.mem_cons, List.not_mem_nil, or_false] at hresp
    rcases hresp with rfl | rfl | rfl <;>
      exact ⟨by simp [handleGenerate, hp, generate3DStructure, hk, errorMessage],
             by simp [handleGenerate, hp, generate3DStructure, hk, errorMessage]⟩

/-- C6 (witness): a failed call on a non-empty prompt with a credential
present sets the generic message and keeps `modelData`. -/
theorem generate_failure_error_state_witness :
    generate3DStructure "key" "a cube" .callFailure = .error .generationFailed ∧
    handleGenerate { modelData := none, error := none, loading := true } "a cube" "key"
        .callFailure =
      { modelData := none, error := some "Failed to generate 3D model data.",
        loading := false } := by
  have h := generate_failure_error_state
    { modelData := none, error := none, loading := true } "a cube" "key" (by decide) (by decide)
  exact ⟨h.1.1, (h.2.2 BackendResult.callFailure (by simp)).1⟩

/-- C7 (counterexample): the claim says the material is textured exactly when
`texture` is one of {wood, brick, stone, metal, tech, checkers}.  But
`if (texture && TEXTURE_MAP[texture])` is bracket access on a plain object
literal, which also finds the inherited `Object.prototype` members: for
`texture: "constructor"` the condition is truthy (the inherited `Object`
function) and the program takes the textured branch although `"constructor"`
lies outside the documented set. -/
theorem ShapeMaterial_proto_texture_cex :
    (ShapeMaterial ⟨"box", [], [], [], "#ffffff", none, none, some "constructor"⟩).map =
      some { url := .protoFn "constructor", wrapS := true, wrapT := true,
             repeatX := 1, repeatY := 1 } ∧
    "constructor" ∉ textureKeys :=
  ⟨rfl, by decide⟩

/-- C7 (amended): the material always uses the shape's color with metalness
defaulting to 0.3 and roughness to 0.5 when those fields are absent; it is
textured exactly when the `texture` field is one of the six Texture Library
keys or one of the inherited `Object.prototype` property names; the map is
always tiled with repeat wrapping and a 1×1 repeat, and for the six library
keys it carries the key's URL (for a prototype name it carries the inherited
non-URL member); for any other value — absent, empty, or a string that reads
`undefined` — an untextured material with the same color/metalness/roughness
is applied. -/
theorem ShapeMaterial_defaults_and_texture (shape : ShapeData) :
    (ShapeMaterial shape).color = shape.color ∧
    (ShapeMaterial shape).metalness = shape.metalness.getD (3/10) ∧
    (ShapeMaterial shape).roughness = shape.roughness.getD (1/2) ∧
    ((ShapeMaterial shape).map.isSome = true ↔
      ∃ t, shape.texture = some t ∧ (t ∈ textureKeys ∨ t ∈ OBJECT_PROTOTYPE_KEYS)) ∧
    (∀ t u, shape.texture = some t → jsLookup TEXTURE_MAP t = some u →
      (ShapeMaterial shape).map =
        some { url := .str u, wrapS := true, wrapT := true, repeatX := 1, repeatY := 1 }) ∧
    (∀ t, shape.texture = some t → t ∉ textureKeys → t ∉ OBJECT_PROTOTYPE_KEYS →
      (ShapeMaterial shape).map = none) := by
  refine ⟨shapeMaterial_color shape, shapeMaterial_metalness shape,
    shapeMaterial_roughness shape, ?_, ?_, ?_⟩
  · rw [shapeMaterial_map_eq]
    cases htex : shape.texture with
    | none => simp
    | some t => simp [jsGetProp_TEXTURE_MAP_isSome]
  · intro t u ht hu
    rw [shapeMaterial_map_eq, ht]
    simp [jsGetProp, hu]
  · intro t ht h1 h2
    rw [shapeMaterial_map_eq, ht]
    cases hl : jsLookup TEXTURE_MAP t with
    | some u => exact absurd ((jsLookup_TEXTURE_MAP_isSome t).mp (by simp [hl])) h1
    | none => simp [jsGetProp, hl, h2]

/-- C7 (witness): a shape omitting `metalness` renders with metalness 0.3,
and `texture: "wood"` yields the textured material carrying the wood URL. -/
theorem ShapeMaterial_defaults_and_texture_witness :
    (ShapeMaterial ⟨"box", [], [], [], "#8B4513", none, none, some "wood"⟩).metalness = 3/10 ∧
    (ShapeMaterial ⟨"box", [], [], [], "#8B4513", none, none, some "wood"⟩).map =
      some { url := .str "https://raw.githubusercontent.com/mrdoob/three.js/master/examples/textures/hardwood2_diffuse.jpg",
             wrapS := true, wrapT := true, repeatX := 1, repeatY := 1 } := by
  have h := ShapeMaterial_defaults_and_texture ⟨"box", [], [], [], "#8B4513", none, none,
    some "wood"⟩
  exact ⟨h.2.1, h.2.2.2.2.1 "wood"
    "https://raw.githubusercontent.com/mrdoob/three.js/master/examples/textures/hardwood2_diffuse.jpg"
    rfl rfl⟩

/-- C8: `render` is a pure, deterministic function of its input: structurally
equal scene descriptions produce structurally identical scene graphs — the
same node list (node equality is structural, so per node the same geometry
kind, `args`, local transform and material parameters) and in particular the
same node count. -/
theorem render_deterministic (d1 d2 : GeneratedModelData) (h : d1 = d2) :
    GeneratedObject d1 = GeneratedObject d2 ∧
    (GeneratedObject d1).length = (GeneratedObject d2).length := by
  subst h
  exact ⟨rfl, rfl⟩

/-- C8 (witness): at the base cylinder of the demo scene of `src/App.tsx`. -/
theorem render_deterministic_witness :
    GeneratedObject
        { shapes := [⟨"cylinder", [0, -1, 0], [0, 0, 0], [6/5, 1/5, 6/5], "#555555",
            none, some (9/10), some "stone"⟩],
          modelUrl := none } =
      GeneratedObject
        { shapes := [⟨"cylinder", [0, -1, 0], [0, 0, 0], [6/5, 1/5, 6/5], "#555555",
            none, some (9/10), some "stone"⟩],
          modelUrl := none } :=
  (render_deterministic
      { shapes := [⟨"cylinder", [0, -1, 0], [0, 0, 0], [6/5, 1/5, 6/5], "#555555",
          none, some (9/10), some "stone"⟩],
        modelUrl := none }
      { shapes := [⟨"cylinder", [0, -1, 0], [0, 0, 0], [6/5, 1/5, 6/5], "#555555",
          none, some (9/10), some "stone"⟩],
        modelUrl := none }
      rfl).1

/-- C9: the renderer never fails on degenerate transforms: every shape with a
valid `kind` — in particular one whose scale is the zero vector or whose
position/rotation/scale arrays are missing components (read as `undefined`,
not an error) — still produces a node, and a scene containing it renders
that node rather than aborting. -/
theorem render_degenerate_tolerant (s : ShapeData) (h : s.type ∈ validKinds) :
    (ShapeRenderer s).isSome = true ∧
    (GeneratedObject { shapes := [s], modelUrl := none }).length = 1 := by
  have hs : (ShapeRenderer s).isSome = true := (ShapeRenderer_isSome_iff s).mpr h
  refine ⟨hs, ?_⟩
  obtain ⟨n, hn⟩ := Option.isSome_iff_exists.mp hs
  simp [GeneratedObject, hn]

/-- C9 (witness): a box with zero scale and empty position/rotation arrays
still yields its node. -/
theorem render_degenerate_tolerant_witness :
    (ShapeRenderer ⟨"box", [], [], [0, 0, 0], "#ffffff", none, none, none⟩).isSome = true ∧
    (GeneratedObject
        { shapes := [⟨"box", [], [], [0, 0, 0], "#ffffff", none, none, none⟩],
          modelUrl := none }).length = 1 :=
  render_degenerate_tolerant ⟨"box", [], [], [0, 0, 0], "#ffffff", none, none, none⟩ (by decide)

/-- C10 (implicit): no normalization or clamping anywhere: the generator
returns the parsed `shapes` value itself (the identical runtime value, so
the same entries in the same order), and the renderer applies `metalness`
and `roughness` verbatim even outside [0, 1]; the texture string passes
through the generator and is used verbatim as the bracket-access key of the
Texture Library — a string outside both the library keys and the inherited
`Object.prototype` names (such as `"lava"`) therefore yields the untextured
material rather than an error. -/
theorem passthrough_no_normalization (apiKey prompt : String)
    (fs : List (String × JsonValue)) (sv : JsonValue) (s : ShapeData) (m r : ℚ) (t : String)
    (hkey : apiKey ≠ "") (hsv : jsLookup fs "shapes" = some sv) (htr : jsTruthy sv = true) :
    (generate3DStructure apiKey prompt (.parsed (.obj fs)) =
      .ok { shapes := sv, modelUrl := resolveModelKey (jsLookup fs "modelKey") }) ∧
    (s.metalness = some m → (ShapeMaterial s).metalness = m) ∧
    (s.roughness = some r → (ShapeMaterial s).roughness = r) ∧
    (s.texture = some t → (ShapeMaterial s).map =
      (jsGetProp TEXTURE_MAP t).map fun v =>
        ({ url := v, wrapS := true, wrapT := true, repeatX := 1, repeatY := 1 } :
          TextureSettings)) := by
  refine ⟨?_, ?_, ?_, ?_⟩
  · simp [generate3DStructure, hkey, buildResult, jsGetField, jsOrEmptyArr, hsv, htr]
  · intro hm
    simp [shapeMaterial_metalness, hm]
  · intro hr
    simp [shapeMaterial_roughness, hr]
  · intro ht
    rw [shapeMaterial_map_eq, ht]
    simp

/-- C10 (witness): `metalness: 7`, `roughness: -2` and `texture: "lava"` are
applied or dropped verbatim, and the parsed shapes value flows through the
generator unchanged. -/
theorem passthrough_no_normalization_witness :
    generate3DStructure "key" "p" (.parsed (.obj [("shapes", .arr [.num 5])])) =
      .ok { shapes := .arr [.num 5], modelUrl := none } ∧
    (ShapeMaterial ⟨"box", [], [], [], "#ffffff", some 7, some (-2), some "lava"⟩).metalness
      = 7 ∧
    (ShapeMaterial ⟨"box", [], [], [], "#ffffff", some 7, some (-2), some "lava"⟩).roughness
      = -2 ∧
    (ShapeMaterial ⟨"box", [], [], [], "#ffffff", some 7, some (-2), some "lava"⟩).map
      = none := by
  have h := passthrough_no_normalization "key" "p" [("shapes", JsonValue.arr [.num 5])]
    (.arr [.num 5]) ⟨"box", [], [], [], "#ffffff", some 7, some (-2), some "lava"⟩ 7 (-2)
    "lava" (by decide) rfl rfl
  exact ⟨h.1, h.2.1 rfl, h.2.2.1 rfl, h.2.2.2 rfl⟩

end ARGen
